import Mathlib

/-!
Verification of the Spack build recipes in
`var/spack/repos/builtin/packages/{mpich,libfontenc,perl-sub-install}/package.py`.

The recipes are shallowly embedded: a variant selection becomes a structure of
booleans and enumerations, the configure-argument builder becomes a pure
function on that structure, the lifecycle hooks become explicit state
transformers on a state holding the accumulated environment modifications and
the mutable spec attributes, and the single explicit error path becomes an
`Except`-valued function.
-/

/-! ## Variant value enumerations (mpich `variant(...)` declarations) -/

/-- Allowed values of the mpich `pmi` variant (`values=('off','pmi','pmi2','pmix')`). -/
inductive PmiValue where
  | off
  | pmi
  | pmi2
  | pmix
deriving DecidableEq, Fintype

/-- Allowed values of the mpich `device` variant (`values=('ch3','ch4')`). -/
inductive DeviceValue where
  | ch3
  | ch4
deriving DecidableEq, Fintype

/-- Allowed values of the mpich `netmod` variant (`values=('tcp','mxm','ofi','ucx')`). -/
inductive NetmodValue where
  | tcp
  | mxm
  | ofi
  | ucx
deriving DecidableEq, Fintype

/-- A concrete variant selection of the mpich recipe, together with the
dependency prefixes that `configure_args` reads from the concretized spec
(`spec['slurm'].prefix.include`, `spec['slurm'].prefix.lib`,
`spec['pmix'].prefix`, `spec['libfabric'].prefix`, `spec['ucx'].prefix`). -/
structure MpichSpec where
  hydra : Bool
  romio : Bool
  verbs : Bool
  slurm : Bool
  wrapperrpath : Bool
  pmi : PmiValue
  device : DeviceValue
  netmod : NetmodValue
  pci : Bool
  slurmPrefixInclude : String
  slurmPrefixLib : String
  pmixPrefixStr : String
  libfabricPrefixStr : String
  ucxPrefixStr : String
deriving DecidableEq

/-! ## configure_args (mpich package.py lines 175-231), one definition per
append block of the source function -/

/-- The initial `config_args` list literal (lines 177-184). -/
def baseArgs (s : MpichSpec) : List String :=
  [ "--enable-shared",
    "--with-pm=" ++ (if s.hydra then "hydra" else "no"),
    "--" ++ (if s.romio then "enable" else "disable") ++ "-romio",
    "--" ++ (if s.verbs then "with" else "without") ++ "-ibverbs",
    "--enable-wrapper-rpath=" ++ (if !s.wrapperrpath then "no" else "yes") ]

/-- The SLURM block (lines 186-193). -/
def slurmArgs (s : MpichSpec) : List String :=
  if s.slurm then
    [ "--with-slurm=yes",
      "--with-slurm-include=" ++ s.slurmPrefixInclude,
      "--with-slurm-lib=" ++ s.slurmPrefixLib ]
  else
    [ "--with-slurm=no" ]

/-- The PMI block (lines 195-202); the `elif` chain is total because the
variant is single-valued over exactly these four values. -/
def pmiArgs (s : MpichSpec) : List String :=
  match s.pmi with
  | .off => ["--with-pmi=no"]
  | .pmi => ["--with-pmi=simple"]
  | .pmi2 => ["--with-pmi=pmi2/simple"]
  | .pmix => ["--with-pmix=" ++ s.pmixPrefixStr]

/-- The `device_config` string built by the two `if`/`elif` chains
(lines 204-218). -/
def deviceArg (d : DeviceValue) (n : NetmodValue) : String :=
  (match d with
   | .ch4 => "--with-device=ch4:"
   | .ch3 => "--with-device=ch3:nemesis:") ++
  (match n with
   | .ucx => "ucx"
   | .ofi => "ofi"
   | .mxm => "mxm"
   | .tcp => "tcp")

/-- The trailing libfabric/ucx path flags (lines 222-229). -/
def netmodLibArgs (s : MpichSpec) : List String :=
  (if s.netmod = .ofi then ["--with-libfabric=" ++ s.libfabricPrefixStr] else []) ++
  (if s.netmod = .ucx then ["--with-ucx=" ++ s.ucxPrefixStr] else [])

/-- `Mpich.configure_args` (lines 175-231): the successive in-place appends of
the source are written as list concatenation. -/
def configure_args (s : MpichSpec) : List String :=
  baseArgs s ++ slurmArgs s ++ pmiArgs s ++ [deviceArg s.device s.netmod] ++
    netmodLibArgs s

/-! ## String-prefix helper used to classify flags -/

/-- `pat` is a leading substring of `s`, computed on the character lists. -/
def strStartsWith (pat s : String) : Bool :=
  pat.data.isPrefixOf s.data

/-! ## Declared conflict table restricted to variant-only conditions
(lines 107-114; the rows conditioned on package versions are about the
version axis and do not involve configure_args) -/

/-- The variant-only rows of the mpich `conflicts(...)` table:
`conflicts('netmod=ucx', when='device=ch3')`,
`conflicts('netmod=mxm', when='device=ch4')`,
`conflicts('netmod=tcp', when='device=ch4')`,
`conflicts('pmi=pmi2', when='device=ch3 netmod=ofi')`,
`conflicts('pmi=pmix', when='device=ch3')`. -/
def noConflicts (d : DeviceValue) (n : NetmodValue) (p : PmiValue) : Prop :=
  ¬(n = .ucx ∧ d = .ch3) ∧ ¬(n = .mxm ∧ d = .ch4) ∧ ¬(n = .tcp ∧ d = .ch4) ∧
  ¬(p = .pmi2 ∧ d = .ch3 ∧ n = .ofi) ∧ ¬(p = .pmix ∧ d = .ch3)

instance (d : DeviceValue) (n : NetmodValue) (p : PmiValue) :
    Decidable (noConflicts d n p) := by
  unfold noConflicts
  infer_instance

/-! ## Lifecycle hooks as state transformers (mpich package.py lines 116-154) -/

/-- One modification recorded on the `env` object handed to the hooks
(`env.set(name, value)` / `env.unset(name)`). -/
inductive EnvMod where
  | set (name value : String)
  | unset (name : String)
deriving DecidableEq

/-- The attributes that `setup_dependent_package` assigns on the spec object;
`none` stands for "attribute not set". -/
structure SpecAttrs where
  mpicc : Option String
  mpicxx : Option String
  mpifc : Option String
  mpif77 : Option String
  mpicxx_shared_libs : Option (List String)
deriving DecidableEq

/-- Ambient package data read (never written) by the hooks: the platform test
`'platform=cray' in self.spec`, the install prefix paths, `dso_suffix` and
the `spack_cc`/`spack_cxx`/`spack_f77`/`spack_fc` wrapper paths. -/
structure PkgCtx where
  platformCray : Bool
  prefixBin : String
  prefixLib : String
  dso_suffix : String
  spack_cc : String
  spack_cxx : String
  spack_f77 : String
  spack_fc : String
deriving DecidableEq

/-- The state a lifecycle hook may act on: the accumulated environment
modifications and the spec attributes. -/
structure HookState where
  env : List EnvMod
  spec : SpecAttrs
deriving DecidableEq

/-- `env.set(n, v)` appends a set-modification record. -/
def envSet (e : List EnvMod) (n v : String) : List EnvMod :=
  e ++ [EnvMod.set n v]

/-- `env.unset(n)` appends an unset-modification record. -/
def envUnset (e : List EnvMod) (n : String) : List EnvMod :=
  e ++ [EnvMod.unset n]

/-- Spack's `join_path` on two components. -/
def join_path (a b : String) : String :=
  a ++ "/" ++ b

/-- `Mpich.setup_build_environment` (lines 116-118). -/
def setup_build_environment (st : HookState) : HookState :=
  { st with env := envUnset (envUnset st.env "F90") "F90FLAGS" }

/-- `Mpich.setup_dependent_build_environment` (lines 120-137); note that on
Cray the source sets both `MPIF77` and `MPIF90` from `spack_fc`. -/
def setup_dependent_build_environment (ctx : PkgCtx) (st : HookState) : HookState :=
  let env := st.env
  let env :=
    if ctx.platformCray then
      envSet (envSet (envSet (envSet env "MPICC" ctx.spack_cc)
        "MPICXX" ctx.spack_cxx) "MPIF77" ctx.spack_fc) "MPIF90" ctx.spack_fc
    else
      envSet (envSet (envSet (envSet env
        "MPICC" (join_path ctx.prefixBin "mpicc"))
        "MPICXX" (join_path ctx.prefixBin "mpic++"))
        "MPIF77" (join_path ctx.prefixBin "mpif77"))
        "MPIF90" (join_path ctx.prefixBin "mpif90")
  let env := envSet env "MPICH_CC" ctx.spack_cc
  let env := envSet env "MPICH_CXX" ctx.spack_cxx
  let env := envSet env "MPICH_F77" ctx.spack_f77
  let env := envSet env "MPICH_F90" ctx.spack_fc
  let env := envSet env "MPICH_FC" ctx.spack_fc
  { st with env := env }

/-- `Mpich.setup_dependent_package` (lines 139-154): assigns the MPI wrapper
attributes and `mpicxx_shared_libs` on the spec object. -/
def setup_dependent_package (ctx : PkgCtx) (st : HookState) : HookState :=
  let sp := st.spec
  let sp :=
    if ctx.platformCray then
      { sp with
        mpicc := some ctx.spack_cc,
        mpicxx := some ctx.spack_cxx,
        mpifc := some ctx.spack_fc,
        mpif77 := some ctx.spack_f77 }
    else
      { sp with
        mpicc := some (join_path ctx.prefixBin "mpicc"),
        mpicxx := some (join_path ctx.prefixBin "mpic++"),
        mpifc := some (join_path ctx.prefixBin "mpif90"),
        mpif77 := some (join_path ctx.prefixBin "mpif77") }
  let sp :=
    { sp with
      mpicxx_shared_libs := some
        [ join_path ctx.prefixLib ("libmpicxx." ++ ctx.dso_suffix),
          join_path ctx.prefixLib ("libmpi." ++ ctx.dso_suffix) ] }
  { st with spec := sp }

/-! ## The explicit error path (mpich package.py lines 165-173) -/

/-- The compiler object consulted by `die_without_fortran`; each entry is the
path of that compiler or `none` when the compiler is absent. -/
structure Compiler where
  cc : Option String
  cxx : Option String
  f77 : Option String
  fc : Option String
deriving DecidableEq

/-- `Mpich.die_without_fortran` (lines 165-173): raises `InstallError`
(modelled as `Except.error` carrying the message) when `compiler.f77` or
`compiler.fc` is `None`, and returns normally otherwise. -/
def die_without_fortran (c : Compiler) : Except String Unit :=
  if c.f77.isNone || c.fc.isNone then
    Except.error "Mpich requires both C and Fortran compilers!"
  else
    Except.ok ()

/-! ## Version tables of the three recipes -/

/-- One `version(...)` call: the version identifier, the `sha256` keyword if
given, and the `submodules` keyword (defaulting to false). -/
structure VersionDecl where
  vid : String
  sha256 : Option String
  submodules : Bool

/-- The class-level `git` attribute of the mpich recipe (line 17). -/
def mpichGit : Option String :=
  some "https://github.com/pmodels/mpich.git"

/-- The mpich `version(...)` table (lines 21-32). -/
def mpichVersions : List VersionDecl :=
  [ ⟨"develop", none, true⟩,
    ⟨"3.3.2", some "4bfaf8837a54771d3e4922c84071ef80ffebddbb6971a006038d91ee7ef959b9", false⟩,
    ⟨"3.3.1", some "fe551ef29c8eea8978f679484441ed8bb1d943f6ad25b63c235d4b9243d551e5", false⟩,
    ⟨"3.3", some "329ee02fe6c3d101b6b30a7b6fb97ddf6e82b28844306771fa9dd8845108fa0b", false⟩,
    ⟨"3.2.1", some "5db53bf2edfaa2238eb6a0a5bc3d2c2ccbfbb1badd79b664a1a919d2ce2330f1", false⟩,
    ⟨"3.2", some "0778679a6b693d7b7caff37ff9d2856dc2bfc51318bf8373859bfa74253da3dc", false⟩,
    ⟨"3.1.4", some "f68b5330e94306c00ca5a1c0e8e275c7f53517d01d6c524d51ce9359d240466b", false⟩,
    ⟨"3.1.3", some "afb690aa828467721e9d9ab233fe00c68cae2b7b930d744cb5f7f3eb08c8602c", false⟩,
    ⟨"3.1.2", some "37c3ba2d3cd3f4ea239497d9d34bd57a663a34e2ea25099c2cbef118c9156587", false⟩,
    ⟨"3.1.1", some "455ccfaf4ec724d2cf5d8bff1f3d26a958ad196121e7ea26504fd3018757652d", false⟩,
    ⟨"3.1", some "fcf96dbddb504a64d33833dc455be3dda1e71c7b3df411dfcf9df066d7c32c39", false⟩,
    ⟨"3.0.4", some "cf638c85660300af48b6f776e5ecd35b5378d5905ec5d34c3da7a27da0acf0b3", false⟩ ]

/-- The libfontenc recipe has no class-level `git` attribute. -/
def libfontencGit : Option String := none

/-- The libfontenc `version(...)` table (line 15). -/
def libfontencVersions : List VersionDecl :=
  [ ⟨"1.1.3", some "6fba26760ca8d5045f2b52ddf641c12cedc19ee30939c6478162b7db8b6220fb", false⟩ ]

/-- The perl-sub-install recipe has no class-level `git` attribute. -/
def perlSubInstallGit : Option String := none

/-- The perl-sub-install `version(...)` table (line 15). -/
def perlSubInstallVersions : List VersionDecl :=
  [ ⟨"0.928", some "61e567a7679588887b7b86d427bc476ea6d77fffe7e0d17d640f89007d98ef0f", false⟩ ]

/-! ## Definitions written from the claims' wording, for comparison with the
embedded source functions -/

/-- Modelled from the spec: the five leading flags of C1, written exactly as
that claim lists them, as a function of the boolean variants. -/
def c1FirstFive (s : MpichSpec) : List String :=
  [ "--enable-shared",
    if s.hydra then "--with-pm=hydra" else "--with-pm=no",
    if s.romio then "--enable-romio" else "--disable-romio",
    if s.verbs then "--with-ibverbs" else "--without-ibverbs",
    if s.wrapperrpath = false then "--enable-wrapper-rpath=no"
    else "--enable-wrapper-rpath=yes" ]

/-- Modelled from the spec: the single PMI flag of C4 as a function of the
`pmi` variant value and the pmix dependency prefix. -/
def c4PmiFlag (s : MpichSpec) : String :=
  match s.pmi with
  | .off => "--with-pmi=no"
  | .pmi => "--with-pmi=simple"
  | .pmi2 => "--with-pmi=pmi2/simple"
  | .pmix => "--with-pmix=" ++ s.pmixPrefixStr

/-- The netmod variant value as the string used in the device flag. -/
def netmodName : NetmodValue → String
  | .tcp => "tcp"
  | .mxm => "mxm"
  | .ofi => "ofi"
  | .ucx => "ucx"

/-- Modelled from the spec: the single device flag of C5, built by the
conditional concatenation that claim describes. -/
def c5DeviceFlag (d : DeviceValue) (n : NetmodValue) : String :=
  if d = .ch4 then "--with-device=ch4:" ++ netmodName n
  else "--with-device=ch3:nemesis:" ++ netmodName n

/-- Modelled from the spec: the SLURM flags of C7: three flags when the
`slurm` variant is selected, the single flag `--with-slurm=no` otherwise. -/
def c7SlurmFlags (s : MpichSpec) : List String :=
  if s.slurm then
    [ "--with-slurm=yes",
      "--with-slurm-include=" ++ s.slurmPrefixInclude,
      "--with-slurm-lib=" ++ s.slurmPrefixLib ]
  else
    [ "--with-slurm=no" ]

/-! ## Helper lemmas: filtering each block of configure_args by flag family -/

theorem filter_baseArgs_pmi (s : MpichSpec) :
    (baseArgs s).filter (strStartsWith "--with-pmi") = [] := by
  obtain ⟨h, r, v, sl, w, p, d, n, pc, a1, a2, a3, a4, a5⟩ := s
  cases h <;> cases r <;> cases v <;> cases w <;> rfl

theorem filter_baseArgs_device (s : MpichSpec) :
    (baseArgs s).filter (strStartsWith "--with-device") = [] := by
  obtain ⟨h, r, v, sl, w, p, d, n, pc, a1, a2, a3, a4, a5⟩ := s
  cases h <;> cases r <;> cases v <;> cases w <;> rfl

theorem filter_baseArgs_slurm (s : MpichSpec) :
    (baseArgs s).filter (strStartsWith "--with-slurm") = [] := by
  obtain ⟨h, r, v, sl, w, p, d, n, pc, a1, a2, a3, a4, a5⟩ := s
  cases h <;> cases r <;> cases v <;> cases w <;> rfl

theorem filter_slurmArgs_pmi (s : MpichSpec) :
    (slurmArgs s).filter (strStartsWith "--with-pmi") = [] := by
  obtain ⟨h, r, v, sl, w, p, d, n, pc, a1, a2, a3, a4, a5⟩ := s
  cases sl <;> rfl

theorem filter_slurmArgs_device (s : MpichSpec) :
    (slurmArgs s).filter (strStartsWith "--with-device") = [] := by
  obtain ⟨h, r, v, sl, w, p, d, n, pc, a1, a2, a3, a4, a5⟩ := s
  cases sl <;> rfl

theorem filter_slurmArgs_slurm (s : MpichSpec) :
    (slurmArgs s).filter (strStartsWith "--with-slurm") = c7SlurmFlags s := by
  obtain ⟨h, r, v, sl, w, p, d, n, pc, a1, a2, a3, a4, a5⟩ := s
  cases sl <;> rfl

theorem filter_pmiArgs_pmi (s : MpichSpec) :
    (pmiArgs s).filter (strStartsWith "--with-pmi") = [c4PmiFlag s] := by
  obtain ⟨h, r, v, sl, w, p, d, n, pc, a1, a2, a3, a4, a5⟩ := s
  cases p <;> rfl

theorem filter_pmiArgs_device (s : MpichSpec) :
    (pmiArgs s).filter (strStartsWith "--with-device") = [] := by
  obtain ⟨h, r, v, sl, w, p, d, n, pc, a1, a2, a3, a4, a5⟩ := s
  cases p <;> rfl

theorem filter_pmiArgs_slurm (s : MpichSpec) :
    (pmiArgs s).filter (strStartsWith "--with-slurm") = [] := by
  obtain ⟨h, r, v, sl, w, p, d, n, pc, a1, a2, a3, a4, a5⟩ := s
  cases p <;> rfl

theorem filter_deviceArg_pmi (d : DeviceValue) (n : NetmodValue) :
    [deviceArg d n].filter (strStartsWith "--with-pmi") = [] := by
  cases d <;> cases n <;> rfl

theorem filter_deviceArg_device (d : DeviceValue) (n : NetmodValue) :
    [deviceArg d n].filter (strStartsWith "--with-device") = [c5DeviceFlag d n] := by
  cases d <;> cases n <;> rfl

theorem filter_deviceArg_slurm (d : DeviceValue) (n : NetmodValue) :
    [deviceArg d n].filter (strStartsWith "--with-slurm") = [] := by
  cases d <;> cases n <;> rfl

theorem filter_netmodLibArgs_pmi (s : MpichSpec) :
    (netmodLibArgs s).filter (strStartsWith "--with-pmi") = [] := by
  obtain ⟨h, r, v, sl, w, p, d, n, pc, a1, a2, a3, a4, a5⟩ := s
  cases n <;> rfl

theorem filter_netmodLibArgs_device (s : MpichSpec) :
    (netmodLibArgs s).filter (strStartsWith "--with-device") = [] := by
  obtain ⟨h, r, v, sl, w, p, d, n, pc, a1, a2, a3, a4, a5⟩ := s
  cases n <;> rfl

theorem filter_netmodLibArgs_slurm (s : MpichSpec) :
    (netmodLibArgs s).filter (strStartsWith "--with-slurm") = [] := by
  obtain ⟨h, r, v, sl, w, p, d, n, pc, a1, a2, a3, a4, a5⟩ := s
  cases n <;> rfl

/-! ## Claim theorems -/

/-- Claim C1: for every variant selection of the mpich recipe, the list
returned by configure_args begins with exactly the five flags determined by
the boolean variants: `--enable-shared`; `--with-pm=hydra` when hydra is
selected and `--with-pm=no` otherwise; `--enable-romio`/`--disable-romio` by
romio; `--with-ibverbs`/`--without-ibverbs` by verbs; and
`--enable-wrapper-rpath=no` when wrapperrpath is deselected,
`--enable-wrapper-rpath=yes` otherwise. -/
theorem mpich_configure_args_first_five (s : MpichSpec) :
    (configure_args s).take 5 = c1FirstFive s := by
  obtain ⟨h, r, v, sl, w, p, d, n, pc, a1, a2, a3, a4, a5⟩ := s
  cases h <;> cases r <;> cases v <;> cases w <;> rfl

/-- Claim C10: for every variant selection, configure_args is non-empty and
its first element is `--enable-shared`. -/
theorem mpich_configure_args_starts_enable_shared (s : MpichSpec) :
    ∃ rest, configure_args s = "--enable-shared" :: rest :=
  ⟨_, rfl⟩

/-- Claim C4: for every variant selection, configure_args contributes exactly
one PMI-related flag, matching the selected `pmi` variant value
(`--with-pmi=no`, `--with-pmi=simple`, `--with-pmi=pmi2/simple`, or
`--with-pmix=<pmix prefix>`); the four cases are exhaustive over the allowed
values, which the totality of the match on `PmiValue` witnesses. -/
theorem mpich_configure_args_pmi_flag (s : MpichSpec) :
    (configure_args s).filter (strStartsWith "--with-pmi") = [c4PmiFlag s] := by
  simp only [configure_args, List.filter_append, filter_baseArgs_pmi,
    filter_slurmArgs_pmi, filter_pmiArgs_pmi, filter_deviceArg_pmi,
    filter_netmodLibArgs_pmi, List.nil_append, List.append_nil]

/-- Claim C5: for every variant selection, configure_args appends exactly one
device flag, `--with-device=ch4:<netmod>` when device=ch4 and
`--with-device=ch3:nemesis:<netmod>` when device=ch3, where `<netmod>` is the
selected netmod variant value. -/
theorem mpich_configure_args_device_flag (s : MpichSpec) :
    (configure_args s).filter (strStartsWith "--with-device") =
      [c5DeviceFlag s.device s.netmod] := by
  simp only [configure_args, List.filter_append, filter_baseArgs_device,
    filter_slurmArgs_device, filter_pmiArgs_device, filter_deviceArg_device,
    filter_netmodLibArgs_device, List.nil_append, List.append_nil]

/-- Claim C7: for every variant selection, configure_args contributes exactly
one SLURM setting: the three flags `--with-slurm=yes`,
`--with-slurm-include=<...>`, `--with-slurm-lib=<...>` when the slurm variant
is selected, and only `--with-slurm=no` otherwise; never both. -/
theorem mpich_configure_args_slurm_flags (s : MpichSpec) :
    (configure_args s).filter (strStartsWith "--with-slurm") =
      c7SlurmFlags s := by
  simp only [configure_args, List.filter_append, filter_baseArgs_slurm,
    filter_slurmArgs_slurm, filter_pmiArgs_slurm, filter_deviceArg_slurm,
    filter_netmodLibArgs_slurm, List.nil_append, List.append_nil]

/-- Claim C6: for every variant selection satisfying the variant-only rows of
the declared conflict table (in particular not both device=ch3 and
netmod=ucx, not both device=ch4 and netmod=mxm, and not both device=ch4 and
netmod=tcp), the device flag produced by configure_args is one of exactly
five strings. -/
theorem mpich_device_flag_conflict_free (d : DeviceValue) (n : NetmodValue)
    (p : PmiValue) (hc : noConflicts d n p) :
    deviceArg d n ∈
      [ "--with-device=ch3:nemesis:tcp", "--with-device=ch3:nemesis:mxm",
        "--with-device=ch3:nemesis:ofi", "--with-device=ch4:ofi",
        "--with-device=ch4:ucx" ] := by
  cases d <;> cases n <;> first
    | decide
    | simp [noConflicts] at hc

/-- Witness for C6: the default selection device=ch3, netmod=tcp, pmi=pmi is
conflict-free and yields one of the five listed device flags. -/
theorem mpich_device_flag_conflict_free_witness :
    noConflicts DeviceValue.ch3 NetmodValue.tcp PmiValue.pmi ∧
    deviceArg DeviceValue.ch3 NetmodValue.tcp ∈
      [ "--with-device=ch3:nemesis:tcp", "--with-device=ch3:nemesis:mxm",
        "--with-device=ch3:nemesis:ofi", "--with-device=ch4:ofi",
        "--with-device=ch4:ucx" ] :=
  ⟨by decide,
    mpich_device_flag_conflict_free DeviceValue.ch3 NetmodValue.tcp
      PmiValue.pmi (by decide)⟩

/-- Claim C3: die_without_fortran raises an InstallError exactly when the
compiler's f77 entry or its fc entry is None, returns normally otherwise, and
its error is the single message `Mpich requires both C and Fortran
compilers!`; every other operation of the three recipes is embedded as a
total function and raises nothing. -/
theorem mpich_die_without_fortran_error_iff (c : Compiler) :
    (die_without_fortran c =
        Except.error "Mpich requires both C and Fortran compilers!" ↔
      (c.f77 = none ∨ c.fc = none)) ∧
    (∀ e, die_without_fortran c = Except.error e →
      e = "Mpich requires both C and Fortran compilers!") ∧
    (¬(c.f77 = none ∨ c.fc = none) → die_without_fortran c = Except.ok ()) := by
  obtain ⟨cc, cxx, f77v, fcv⟩ := c
  cases f77v <;> cases fcv <;> simp [die_without_fortran]

/-- Witness for C3: at a compiler with no f77 entry the hook raises the
single InstallError message. -/
theorem mpich_die_without_fortran_error_iff_witness :
    die_without_fortran ⟨some "cc", some "cxx", none, some "fc"⟩ =
      Except.error "Mpich requires both C and Fortran compilers!" :=
  (mpich_die_without_fortran_error_iff
      ⟨some "cc", some "cxx", none, some "fc"⟩).1.mpr (Or.inl rfl)

/-- Claim C9: the missing-compiler check examines only the Fortran entries:
whenever both f77 and fc are present no InstallError is raised, even if the C
or C++ compiler is absent. -/
theorem mpich_fortran_check_ignores_c_compiler (c : Compiler)
    (h77 : c.f77.isSome = true) (hfc : c.fc.isSome = true) :
    die_without_fortran c = Except.ok () := by
  obtain ⟨cc, cxx, f77v, fcv⟩ := c
  cases f77v <;> cases fcv <;> simp_all [die_without_fortran]

/-- Witness for C9: a compiler with both C entries absent but both Fortran
entries present passes the check. -/
theorem mpich_fortran_check_ignores_c_compiler_witness :
    (Compiler.mk none none (some "gfortran") (some "gfortran")).cc = none ∧
    die_without_fortran
        (Compiler.mk none none (some "gfortran") (some "gfortran")) =
      Except.ok () :=
  ⟨rfl,
    mpich_fortran_check_ignores_c_compiler
      (Compiler.mk none none (some "gfortran") (some "gfortran")) rfl rfl⟩

/-- Counterexample to claim C2 as stated: at a concrete input the lifecycle
hook setup_dependent_package does mutate fields of the spec object. -/
theorem mpich_setup_dependent_package_mutates_spec :
    (setup_dependent_package
        ⟨false, "/mpich/bin", "/mpich/lib", "so", "cc", "cxx", "f77", "fc"⟩
        ⟨[], ⟨none, none, none, none, none⟩⟩).spec ≠
      (HookState.mk [] ⟨none, none, none, none, none⟩).spec := by
  decide

/-- Claim C2 as amended: the hooks are side-effect-free except for recording
environment modifications, invoking the external build script, and
setup_dependent_package, which assigns exactly the MPI wrapper attributes
(mpicc, mpicxx, mpifc, mpif77, mpicxx_shared_libs) on the spec object and
leaves the environment untouched; the environment hooks leave the spec
untouched. -/
theorem mpich_hooks_frame_amended (ctx : PkgCtx) (st : HookState) :
    (setup_build_environment st).spec = st.spec ∧
    (setup_dependent_build_environment ctx st).spec = st.spec ∧
    (setup_dependent_package ctx st).env = st.env ∧
    ∃ a b c d libs, (setup_dependent_package ctx st).spec =
      ⟨some a, some b, some c, some d, some libs⟩ := by
  refine ⟨rfl, rfl, rfl, ?_⟩
  simp only [setup_dependent_package]
  cases ctx.platformCray
  · exact ⟨_, _, _, _, _, rfl⟩
  · exact ⟨_, _, _, _, _, rfl⟩

/-- Claim C8: in each of the three recipes, every declared version entry
carries a sha256 checksum or a source locator (the class-level git repository
for mpich's develop version), and version identifiers are pairwise distinct
within a recipe. -/
theorem recipes_version_tables_wellformed :
    (mpichVersions.all fun v =>
      v.sha256.isSome || (v.vid == "develop" && mpichGit.isSome)) = true ∧
    (mpichVersions.map fun v => v.vid).Nodup ∧
    (libfontencVersions.all fun v =>
      v.sha256.isSome || libfontencGit.isSome) = true ∧
    (libfontencVersions.map fun v => v.vid).Nodup ∧
    (perlSubInstallVersions.all fun v =>
      v.sha256.isSome || perlSubInstallGit.isSome) = true ∧
    (perlSubInstallVersions.map fun v => v.vid).Nodup := by
  decide
